import Mathlib

/-!
Verification development for the odfuzz filter-expression generation and
reconstruction engine (`odfuzz/entities.py`, `odfuzz/constants.py`,
`odfuzz/monkey.py`).

The Python code is shallowly embedded: the process-wide random source is
modelled as explicit streams of draws (`Rng`), Python exceptions as an
error type (`Err`), and the unbounded mutual recursion of the grammar as
fuel-indexed total functions.  Machine floats used as probabilities are
embedded as integers scaled by a fixed denominator (see `Rng`).
-/

namespace Odfuzz

/-- Python exceptions and modelling artifacts: `outOfRand`/`outOfFuel` are
artifacts of the finite random streams and the fuel; the others mirror
Python `IndexError`, `TypeError`, `KeyError`, `ValueError`. -/
inductive Err where
  | outOfRand
  | outOfFuel
  | indexError
  | typeError
  | keyError
  | valueError
deriving Repr, DecidableEq

/-- The process-wide random source, split into the three kinds of draws the
code makes: `random.random()` results (`reals`), `random.choice` /
`random.sample` index draws (`choices`), and the literal tokens produced by
the property / `RandomGenerator` literal generators (`lits`).

Probabilities: floats are dyadic rationals and every probability constant in
the source has at most two decimal places, so draws and weights are embedded
as integer numerators over the fixed denominator `PROB_DENOM = 100`:
a draw `r : ℤ` stands for the float `r / 100`, and a source test
`random.random() < c` becomes `r < 100 * c`. -/
structure Rng where
  reals : List ℤ
  choices : List Nat
  lits : List String
deriving Repr, DecidableEq

/-- Source `random.random()`. -/
def rngReal (r : Rng) : Except Err (ℤ × Rng) :=
  match r.reals with
  | [] => .error .outOfRand
  | q :: qs => .ok (q, { r with reals := qs })

/-- Source `random.choice(seq)`: raises `IndexError` on an empty sequence, otherwise
returns an element selected by the next index draw. -/
def rngChoice {α : Type} (xs : List α) (r : Rng) : Except Err (α × Rng) :=
  match xs with
  | [] => .error .indexError
  | y :: ys =>
    match r.choices with
    | [] => .error .outOfRand
    | i :: is => .ok ((y :: ys).getD (i % (ys.length + 1)) y, { r with choices := is })

/-- A literal produced by a property's generator or by `RandomGenerator`. -/
def rngLit (r : Rng) : Except Err (String × Rng) :=
  match r.lits with
  | [] => .error .outOfRand
  | s :: ss => .ok (s, { r with lits := ss })

/-- The denominator of the fixed-point probability embedding. -/
def PROB_DENOM : ℤ := 100

/-- Source `weighted_random(items)` (entities.py): walk the weighted list,
returning the first value whose weight exceeds the remaining draw;
`none` models the Python function returning `None` past the last item. -/
def weightedRandomAux : ℤ → List (String × ℤ) → Option String
  | _, [] => none
  | r, (v, w) :: rest => if r < w then some v else weightedRandomAux (r - w) rest

/-- Source `RECURSION_LIMIT` (constants.py). -/
def RECURSION_LIMIT : Nat := 3

/-- Source `FUNCTION_WEIGHT = 0.3` (constants.py). -/
def FUNCTION_WEIGHT : ℤ := 30

/-- The float `0.5` against which the grammar's fair-coin draws are tested. -/
def ONE_HALF : ℤ := 50

/-- Source `LOGICAL_OPERATORS = {and: 0.5, or: 0.5}` (constants.py), in dict
insertion order. -/
def LOGICAL_OPERATORS : List (String × ℤ) := [("and", 50), ("or", 50)]

/-- Source `BOOLEAN_OPERATORS = {eq: 0.5, ne: 0.5}` (constants.py). -/
def BOOLEAN_OPERATORS : List (String × ℤ) := [("eq", 50), ("ne", 50)]

/-- Source `EXPRESSION_OPERATORS = {eq: 0.3, ne: 0.3, gt: 0.1, ge: 0.1, lt: 0.1,
le: 0.1}` (constants.py). -/
def EXPRESSION_OPERATORS : List (String × ℤ) :=
  [("eq", 30), ("ne", 30), ("gt", 10), ("ge", 10), ("lt", 10), ("le", 10)]

/-- A property as seen by this core: name, EDM type name, filterability flag
and the weighted operator table installed by `monkey.patch_proprty_operator`.
Its literal generator is modelled by `rngLit`. -/
structure Proprty where
  name : String
  typ : String := ""
  filterable : Bool := true
  operators : List (String × ℤ) := []
deriving Repr, DecidableEq

/-! Part: The expression graph (`Option` in entities.py)

Python dict keys that may be absent (`left_id`, `right_id`, `group_id`,
`name`, ...) become `Option` fields; the random 128-bit uuid strings become
`Nat` identifiers drawn from a fresh counter. -/

/-- A Part node (a leaf predicate). -/
structure PartN where
  id : Nat
  name : Option String := none
  oper : Option String := none
  operand : Option String := none
  left_id : Option Nat := none
  right_id : Option Nat := none
  func : Option String := none
deriving Repr, DecidableEq

/-- A Logical node (an `and`/`or` connective). -/
structure LogicalN where
  id : Nat
  name : Option String := none
  left_id : Option Nat := none
  right_id : Option Nat := none
  group_id : Option Nat := none
deriving Repr, DecidableEq

/-- A Group node (a parenthesized sub-expression). -/
structure GroupN where
  id : Nat
  logicals : List Nat := []
  left_id : Option Nat := none
  right_id : Option Nat := none
deriving Repr, DecidableEq

/-- The expression graph: the `Option` class of entities.py. -/
structure OptionG where
  logicals : List LogicalN := []
  parts : List PartN := []
  groups : List GroupN := []
deriving Repr, DecidableEq

def OptionG.logical_by_id (o : OptionG) (i : Nat) : Option LogicalN :=
  o.logicals.find? (fun l => l.id == i)

def OptionG.part_by_id (o : OptionG) (i : Nat) : Option PartN :=
  o.parts.find? (fun p => p.id == i)

def OptionG.group_by_id (o : OptionG) (i : Nat) : Option GroupN :=
  o.groups.find? (fun g => g.id == i)

/-- In-place mutation of a node fetched by reference in Python becomes an
update of the uniquely-identified node. -/
def OptionG.updPart (o : OptionG) (i : Nat) (f : PartN → PartN) : OptionG :=
  { o with parts := o.parts.map (fun p => if p.id = i then f p else p) }

def OptionG.updLogical (o : OptionG) (i : Nat) (f : LogicalN → LogicalN) : OptionG :=
  { o with logicals := o.logicals.map (fun l => if l.id = i then f l else l) }

def OptionG.updGroup (o : OptionG) (i : Nat) (f : GroupN → GroupN) : OptionG :=
  { o with groups := o.groups.map (fun g => if g.id = i then f g else g) }

/-! Part: Filter function catalog descriptors

A `FuncSpec` is one `func_*` method of a function wrapper class: running it
consumes randomness and yields the rendered call text, the operator table of
its return type and the `function_type.name` metadata. The methods never
touch the expression graph, which the `run` type makes structural. -/

structure FuncResult where
  text : String
  operators : List (String × ℤ)
  fname : String
deriving Repr, DecidableEq

structure FuncSpec where
  mname : String
  run : Rng → Except Err (FuncResult × Rng)

/-- One entry of `FilterFunctionsGroup.group`: the wrapper instance holds the
bound methods of its class. -/
structure FuncWrapper where
  methods : List FuncSpec

/-- The data a `FilterQuery` captures at construction: the (possibly
restricted) entity's property list, the function catalog wrappers, and the
recursion limit constant. -/
structure FilterCtx where
  proprties : List Proprty
  funcGroup : List FuncWrapper
  limit : Nat := RECURSION_LIMIT

/-- The mutable state of one `FilterQuery.generate` run plus the random
source. -/
structure GenState where
  rng : Rng
  recursion_depth : Nat := 0
  finalizing_groups : Nat := 0
  right_part : Bool := false
  opt : OptionG := {}
  groups_stack : List Nat := []
  option_string : String := ""
  next_id : Nat := 0
deriving Repr, DecidableEq

def popReal (s : GenState) : Except Err (ℤ × GenState) :=
  match rngReal s.rng with
  | .error e => .error e
  | .ok (q, r) => .ok (q, { s with rng := r })

def popLit (s : GenState) : Except Err (String × GenState) :=
  match rngLit s.rng with
  | .error e => .error e
  | .ok (v, r) => .ok (v, { s with rng := r })

def pyChoiceS {α : Type} (xs : List α) (s : GenState) : Except Err (α × GenState) :=
  match rngChoice xs s.rng with
  | .error e => .error e
  | .ok (x, r) => .ok (x, { s with rng := r })

/-- Source `Option.add_part`. -/
def addPart (s : GenState) : GenState :=
  { s with opt := { s.opt with parts := s.opt.parts ++ [{ id := s.next_id }] }
           next_id := s.next_id + 1 }

/-- Source `Option.add_logical`. -/
def addLogical (s : GenState) : GenState :=
  { s with opt := { s.opt with logicals := s.opt.logicals ++ [{ id := s.next_id }] }
           next_id := s.next_id + 1 }

/-- Source `Option.add_group`. -/
def addGroup (s : GenState) : GenState :=
  { s with opt := { s.opt with groups := s.opt.groups ++ [{ id := s.next_id }] }
           next_id := s.next_id + 1 }

/-- Source `Stack._pop_one`: pop from the end, `None` when empty. -/
def popOne : List Nat → Option Nat × List Nat
  | [] => (none, [])
  | x :: xs => ((x :: xs).getLast?, (x :: xs).dropLast)

/-- Source `Stack.pop(elements_to_pop)`: the result is the value of the final
`_pop_one`, which is `None` when the stack ran out. -/
def stackPopN : List Nat → Nat → Option Nat × List Nat
  | st, 0 => (none, st)
  | st, 1 => popOne st
  | st, n + 2 =>
    let (_, st') := popOne st
    stackPopN st' (n + 1)

/-- Source `FilterQuery._update_group_references`. -/
def update_group_references (s : GenState) (lastGroupId : Nat) : Except Err GenState :=
  match s.opt.logicals.getLast? with
  | none => .error .indexError
  | some ll =>
    let s := { s with opt := s.opt.updLogical ll.id (fun l => { l with right_id := some lastGroupId }) }
    let s := { s with opt := s.opt.updGroup lastGroupId (fun g => { g with left_id := some ll.id }) }
    match s.groups_stack.getLast? with
    | none => .ok s
    | some gid =>
      .ok { s with opt := s.opt.updGroup gid (fun g => { g with logicals := g.logicals ++ [ll.id] }) }

/-- Source `FilterQuery._update_left_logical_references`. -/
def update_left_logical_references (s : GenState) : Except Err GenState :=
  match s.opt.logicals.getLast? with
  | none => .error .indexError
  | some ll =>
    let s :=
      match s.groups_stack.getLast? with
      | some gid => { s with opt := s.opt.updLogical ll.id (fun l => { l with group_id := some gid }) }
      | none => s
    match s.opt.parts.getLast? with
    | none => .error .indexError
    | some lp =>
      let s := { s with opt := s.opt.updLogical ll.id (fun l => { l with left_id := some lp.id }) }
      .ok { s with opt := s.opt.updPart lp.id (fun p => { p with right_id := some ll.id }) }

/-- Source `FilterQuery._update_right_logical_references`. -/
def update_right_logical_references (s : GenState) : Except Err GenState :=
  match s.opt.logicals.getLast? with
  | none => .error .indexError
  | some ll =>
    match s.opt.parts.getLast? with
    | none => .error .indexError
    | some lp =>
      let s := { s with opt := s.opt.updLogical ll.id (fun l => { l with right_id := some lp.id }) }
      let s := { s with opt := s.opt.updPart lp.id (fun p => { p with left_id := some ll.id }) }
      match s.groups_stack.getLast? with
      | none => .ok s
      | some gid =>
        let s := { s with opt := s.opt.updGroup gid (fun g => { g with logicals := g.logicals ++ [ll.id] }) }
        .ok { s with opt := s.opt.updLogical ll.id (fun l => { l with group_id := some gid }) }

/-- Source `FilterQuery._update_proprty_part` fused with the trailing statements of
`_generate_proprty`: sets `name`, `operator`, `operand` on the last part. -/
def setLastPartFields (s : GenState) (nm op od : String) (fn : Option String) :
    Except Err GenState :=
  match s.opt.parts.getLast? with
  | none => .error .indexError
  | some lp =>
    let o := s.opt.updPart lp.id
      (fun p => { p with name := some nm, oper := some op, operand := some od, func := fn })
    .ok { s with opt := o }

/-- Source `FilterQuery._generate_proprty`. -/
def generate_proprty (ctx : FilterCtx) (s : GenState) : Except Err GenState :=
  match pyChoiceS ctx.proprties s with
  | .error e => .error e
  | .ok (p, s) =>
    match popReal s with
    | .error e => .error e
    | .ok (r, s) =>
      let opq := weightedRandomAux r p.operators
      match popLit s with
      | .error e => .error e
      | .ok (opnd, s) =>
        match opq with
        | none => .error .typeError
        | some op =>
          let s := { s with option_string := s.option_string ++ p.name ++ " " ++ op ++ " " ++ opnd }
          setLastPartFields s p.name op opnd none

/-- Source `FilterQuery._generate_function` (with `_update_function_part`). -/
def generate_function (ctx : FilterCtx) (s : GenState) : Except Err GenState :=
  match pyChoiceS ctx.funcGroup s with
  | .error e => .error e
  | .ok (w, s) =>
    match pyChoiceS w.methods s with
    | .error e => .error e
    | .ok (fs, s) =>
      match fs.run s.rng with
      | .error e => .error e
      | .ok (res, rng') =>
        match popReal { s with rng := rng' } with
        | .error e => .error e
        | .ok (r, s) =>
          let opq := weightedRandomAux r res.operators
          match popLit s with
          | .error e => .error e
          | .ok (opnd, s) =>
            match opq with
            | none => .error .typeError
            | some op =>
              let s := { s with option_string :=
                s.option_string ++ res.text ++ " " ++ op ++ " " ++ opnd }
              setLastPartFields s res.text op opnd (some res.fname)

/-- Source `FilterQuery._generate_element`. -/
def generate_element (ctx : FilterCtx) (s : GenState) : Except Err GenState :=
  match popReal (addPart s) with
  | .error e => .error e
  | .ok (r, s) =>
    match (if r < FUNCTION_WEIGHT then generate_function ctx s else generate_proprty ctx s) with
    | .error e => .error e
    | .ok s =>
      if s.right_part then
        update_right_logical_references { s with right_part := false }
      else .ok s

/-- Source `FilterQuery._noterm_logical`. -/
def noterm_logical (s : GenState) : Except Err GenState :=
  match popReal s with
  | .error e => .error e
  | .ok (r, s) =>
    match weightedRandomAux r LOGICAL_OPERATORS with
    | none => .error .typeError
    | some op =>
      let s := { s with option_string := s.option_string ++ " " ++ op ++ " " }
      let s := addLogical s
      match s.opt.logicals.getLast? with
      | none => .error .indexError
      | some ll =>
        let s := { s with opt := s.opt.updLogical ll.id (fun l => { l with name := some op }) }
        if s.finalizing_groups ≠ 0 then
          let (popped, st') := stackPopN s.groups_stack s.finalizing_groups
          let s := { s with groups_stack := st', finalizing_groups := 0 }
          match popped with
          | none => .error .typeError
          | some gid =>
            let s := { s with opt := s.opt.updLogical ll.id (fun l => { l with left_id := some gid }) }
            let s := { s with opt := s.opt.updGroup gid (fun g => { g with right_id := some ll.id }) }
            .ok { s with right_part := true }
        else
          match update_left_logical_references s with
          | .error e => .error e
          | .ok s => .ok { s with right_part := true }

mutual

/-- Source `FilterQuery._noterm_expression`. -/
def noterm_expression (ctx : FilterCtx) : Nat → GenState → Except Err GenState
  | 0, _ => .error .outOfFuel
  | fuel + 1, s =>
    match popReal { s with recursion_depth := s.recursion_depth + 1 } with
    | .error e => .error e
    | .ok (r, s) =>
      if r < ONE_HALF ∨ s.recursion_depth > ctx.limit then generate_element ctx s
      else noterm_child ctx fuel s

/-- Source `FilterQuery._noterm_parent`. -/
def noterm_parent (ctx : FilterCtx) : Nat → GenState → Except Err GenState
  | 0, _ => .error .outOfFuel
  | fuel + 1, s =>
    match popReal s with
    | .error e => .error e
    | .ok (r, s) =>
      if r < ONE_HALF ∨ s.recursion_depth > ctx.limit then noterm_expression ctx fuel s
      else generate_child ctx fuel s

/-- Source `FilterQuery._generate_child`. -/
def generate_child (ctx : FilterCtx) : Nat → GenState → Except Err GenState
  | 0, _ => .error .outOfFuel
  | fuel + 1, s =>
    match popReal s with
    | .error e => .error e
    | .ok (r, s) =>
      if r < ONE_HALF then noterm_child ctx fuel s
      else generate_child_group ctx fuel s

/-- Source `FilterQuery._generate_child_group`. -/
def generate_child_group (ctx : FilterCtx) : Nat → GenState → Except Err GenState
  | 0, _ => .error .outOfFuel
  | fuel + 1, s =>
    let s := { s with option_string := s.option_string ++ "(" }
    let s := addGroup s
    match s.opt.groups.getLast? with
    | none => .error .indexError
    | some lg =>
      match (if s.right_part then
               update_group_references { s with right_part := false } lg.id
             else .ok s) with
      | .error e => .error e
      | .ok s =>
        let s := { s with groups_stack := s.groups_stack ++ [lg.id] }
        match noterm_child ctx fuel s with
        | .error e => .error e
        | .ok s =>
          let s := { s with finalizing_groups := s.finalizing_groups + 1 }
          .ok { s with option_string := s.option_string ++ ")" }

/-- Source `FilterQuery._noterm_child`. -/
def noterm_child (ctx : FilterCtx) : Nat → GenState → Except Err GenState
  | 0, _ => .error .outOfFuel
  | fuel + 1, s =>
    match noterm_parent ctx fuel s with
    | .error e => .error e
    | .ok s =>
      match noterm_logical s with
      | .error e => .error e
      | .ok s => noterm_parent ctx fuel s

end

/-- Source `FilterQuery.generate`: reset variables, run the grammar, reverse the
logical list, return the graph (the final state also carries
`option_string`). -/
def FilterQuery_generate (ctx : FilterCtx) (fuel : Nat) (rng : Rng) :
    Except Err GenState :=
  match noterm_expression ctx fuel { rng := rng } with
  | .error e => .error e
  | .ok s => .ok { s with opt := { s.opt with logicals := s.opt.logicals.reverse } }

/-! Part: The filter renderer (`FilterOptionBuilder`)

`self._used_logicals` is threaded as an explicit list.  A dangling id that
Python would subscript on `None` surfaces as `typeError`; a missing dict key
as `keyError`.  The renderer's mutual recursion over a possibly mutated (and
hence possibly cyclic) graph is fuel-indexed. -/

/-- Source `build_filter_part(part)` (module-level helper in entities.py). -/
def build_filter_part (p : PartN) : Except Err String :=
  match p.name, p.oper, p.operand with
  | some n, some op, some od => .ok (n ++ " " ++ op ++ " " ++ od)
  | _, _, _ => .error .keyError

mutual

/-- Source `FilterOptionBuilder._build_by_id`. -/
def build_by_id (o : OptionG) : Nat → Nat → Bool → List Nat →
    Except Err (String × List Nat)
  | 0, _, _, _ => .error .outOfFuel
  | fuel + 1, pid, skip_left, used =>
    match o.part_by_id pid with
    | some p =>
      match build_filter_part p with
      | .error e => .error e
      | .ok gs => build_surroundings o fuel skip_left p.left_id p.right_id gs used
    | none =>
      match o.group_by_id pid with
      | none => .error .typeError
      | some g =>
        match build_group o fuel g used with
        | .error e => .error e
        | .ok (gs, used) => build_surroundings o fuel skip_left g.left_id g.right_id gs used

/-- Source `FilterOptionBuilder._build_surroundings`, over the node's `left_id` and
`right_id` fields. -/
def build_surroundings (o : OptionG) : Nat → Bool → Option Nat → Option Nat →
    String → List Nat → Except Err (String × List Nat)
  | 0, _, _, _, _, _ => .error .outOfFuel
  | fuel + 1, skip_left, lid, rid, gs, used =>
    if skip_left then
      match lid with
      | none => .ok (gs, used)
      | some i =>
        match o.logical_by_id i with
        | none => .error .typeError
        | some ll =>
          let used := used ++ [ll.id]
          match ll.left_id with
          | none => .error .keyError
          | some j =>
            match build_by_id o fuel j true used with
            | .error e => .error e
            | .ok (ls, used) =>
              match ll.name with
              | none => .error .keyError
              | some nm => .ok (ls ++ " " ++ nm ++ " " ++ gs, used)
    else
      match rid with
      | none => .ok (gs, used)
      | some i =>
        match o.logical_by_id i with
        | none => .error .typeError
        | some rl =>
          let used := used ++ [rl.id]
          match rl.right_id with
          | none => .error .keyError
          | some j =>
            match build_by_id o fuel j false used with
            | .error e => .error e
            | .ok (rs, used) =>
              match rl.name with
              | none => .error .keyError
              | some nm => .ok (gs ++ " " ++ nm ++ " " ++ rs, used)

/-- Source `FilterOptionBuilder._build_group`. -/
def build_group (o : OptionG) : Nat → GroupN → List Nat →
    Except Err (String × List Nat)
  | 0, _, _ => .error .outOfFuel
  | fuel + 1, g, used =>
    match g.logicals with
    | [] => .error .indexError
    | fid :: _ =>
      match o.logical_by_id fid with
      | none => .error .typeError
      | some l =>
        let used := used ++ [l.id]
        match l.left_id with
        | none => .error .keyError
        | some li =>
          match build_by_id o fuel li true used with
          | .error e => .error e
          | .ok (ls, used) =>
            match l.right_id with
            | none => .error .keyError
            | some ri =>
              match build_by_id o fuel ri false used with
              | .error e => .error e
              | .ok (rs, used) =>
                match l.name with
                | none => .error .keyError
                | some nm => .ok ("(" ++ ls ++ " " ++ nm ++ " " ++ rs ++ ")", used)

end

/-- Source `FilterOptionBuilder._check_last_logical`. -/
def check_last_logical (o : OptionG) (fuel : Nat) (s : String) (used : List Nat) :
    Except Err String :=
  match o.logicals.getLast? with
  | none => .error .indexError
  | some ll =>
    if ll.id ∈ used then .ok s
    else
      match ll.left_id with
      | none => .error .keyError
      | some li =>
        match build_by_id o fuel li true used with
        | .error e => .error e
        | .ok (ls, _) =>
          match ll.name with
          | none => .error .keyError
          | some nm => .ok (ls ++ " " ++ nm ++ " " ++ "(" ++ s ++ ")")

/-- Source `FilterOptionBuilder._build_all` (including `_build_first_group`). -/
def build_all (o : OptionG) (fuel : Nat) : Except Err String :=
  match o.logicals with
  | [] => .error .indexError
  | fl :: _ =>
    match fl.group_id with
    | some gid =>
      match o.group_by_id gid with
      | none => .error .typeError
      | some g =>
        match build_group o fuel g [] with
        | .error e => .error e
        | .ok (s0, used) =>
          match (if g.left_id.isSome then build_surroundings o fuel true g.left_id g.right_id s0 used
                 else .ok (s0, used)) with
          | .error e => .error e
          | .ok (s1, used) =>
            match (if g.right_id.isSome then
                     build_surroundings o fuel false g.left_id g.right_id s1 used
                   else .ok (s1, used)) with
            | .error e => .error e
            | .ok (s2, used) => check_last_logical o fuel s2 used
    | none =>
      let used := [fl.id]
      match fl.left_id with
      | none => .error .keyError
      | some li =>
        match build_by_id o fuel li true used with
        | .error e => .error e
        | .ok (ls, used) =>
          match fl.right_id with
          | none => .error .keyError
          | some ri =>
            match build_by_id o fuel ri false used with
            | .error e => .error e
            | .ok (rs, used) =>
              match fl.name with
              | none => .error .keyError
              | some nm => check_last_logical o fuel (ls ++ " " ++ nm ++ " " ++ rs) used

/-- Source `FilterOptionBuilder.build`. -/
def FilterOptionBuilder_build (o : OptionG) (fuel : Nat) : Except Err String :=
  match o.parts with
  | [p] => build_filter_part p
  | _ => build_all o fuel

/-- Source `FilterQuery.generate` followed by `FilterOptionBuilder(option).build()`. -/
def generate_and_build (ctx : FilterCtx) (fuel : Nat) (rng : Rng) : Except Err String :=
  match FilterQuery_generate ctx fuel rng with
  | .error e => .error e
  | .ok s => FilterOptionBuilder_build s.opt fuel

/-! Part: The filter function catalog (`FilterFunctionsGroup` and the wrapper classes)

`delattr(functions_wrapper.__class__, method_name)` mutates the wrapper
*class*, i.e. process-global state: `Classes` models the three classes'
`func_*` method tables, threaded explicitly. -/

/-- Which wrapper class an entry of `FilterFunctionsGroup.group` holds. -/
inductive WrapperKind where
  | stringW
  | dateW
  | mathW
deriving Repr, DecidableEq

/-- The `func_*` method tables of the three wrapper classes, in the
alphabetical order `inspect.getmembers` yields. -/
structure Classes where
  stringFuncs : List String
  dateFuncs : List String
  mathFuncs : List String
deriving Repr, DecidableEq

/-- The classes as defined in entities.py, before any `delattr`. -/
def initialClasses : Classes where
  stringFuncs := ["func_concat", "func_endswith", "func_indexof", "func_length",
    "func_replace", "func_startswith", "func_substring", "func_substringof",
    "func_tolower", "func_toupper", "func_trim"]
  dateFuncs := ["func_day", "func_hour", "func_minute", "func_month",
    "func_second", "func_year"]
  mathFuncs := ["func_ceiling", "func_floor", "func_round"]

/-- Source `get_methods_dict(wrapper.__class__)` under the current class state. -/
def methodsOf (c : Classes) : WrapperKind → List String
  | .stringW => c.stringFuncs
  | .dateW => c.dateFuncs
  | .mathW => c.mathFuncs

/-- Source `dict.setdefault(key, Wrapper()).add_proprty(p)` on the group dict:
append the property to the entry of `key`, creating the entry (with the
given wrapper class) if absent. -/
def setdefaultAdd (g : List (String × WrapperKind × List Proprty)) (k : String)
    (w : WrapperKind) (p : Proprty) : List (String × WrapperKind × List Proprty) :=
  if g.any (fun e => e.1 == k) then
    g.map (fun e => if e.1 == k then (e.1, e.2.1, e.2.2 ++ [p]) else e)
  else g ++ [(k, w, [p])]

/-- Source `FilterFunctionsGroup._init_functions_group`: note that the `'Math'`
entry is created with `DateFilterFunctions()` in the source (line 588). -/
def init_functions_group (props : List Proprty) :
    List (String × WrapperKind × List Proprty) :=
  props.foldl (fun g p =>
    if p.typ == "Edm.String" then setdefaultAdd g "String" .stringW p
    else if p.typ == "Edm.Date" then setdefaultAdd g "Date" .dateW p
    else if p.typ == "Edm.Decimal" then setdefaultAdd g "Math" .dateW p
    else g) []

/-- The inner loop of `FilterFunctionsGroup._delete_restricted_functions`
on one class's method table: for each restricted name, delete
`'func_' + name` if present. -/
def deleteFromClass (restricted : List String) (methods : List String) : List String :=
  restricted.foldl
    (fun ms r => if ("func_" ++ r) ∈ ms then ms.erase ("func_" ++ r) else ms) methods

/-- Source `FilterFunctionsGroup._delete_restricted_functions`: iterate over the
group's wrappers and `delattr` from each wrapper's *class*. -/
def delete_restricted_functions (g : List (String × WrapperKind × List Proprty))
    (restricted : List String) (c : Classes) : Classes :=
  g.foldl (fun c e =>
    match e.2.1 with
    | .stringW => { c with stringFuncs := deleteFromClass restricted c.stringFuncs }
    | .dateW => { c with dateFuncs := deleteFromClass restricted c.dateFuncs }
    | .mathW => { c with mathFuncs := deleteFromClass restricted c.mathFuncs }) c

/-- Source `FilterFunctionsGroup.__init__`: build the group, then, when the group
is non-empty and a global function exclusion list is configured, apply it
(mutating the classes). -/
def FilterFunctionsGroup_init (props : List Proprty) (restricted : Option (List String))
    (c : Classes) : List (String × WrapperKind × List Proprty) × Classes :=
  let g := init_functions_group props
  match restricted with
  | none => (g, c)
  | some rs =>
    if g.isEmpty || rs.isEmpty then (g, c)
    else (g, delete_restricted_functions g rs c)

/-! The concrete `func_*` methods. Each consumes randomness exactly as the
source does; `RandomGenerator.edm_string` / `edm_byte` literals are drawn
from the `lits` stream like property literals. -/

def run_one_prop (fn : String) (ops : List (String × ℤ)) (fname : String)
    (props : List Proprty) : Rng → Except Err (FuncResult × Rng) := fun r =>
  match rngChoice props r with
  | .error e => .error e
  | .ok (p, r) => .ok ({ text := fn ++ "(" ++ p.name ++ ")", operators := ops, fname := fname }, r)

def run_prop_value (fn : String) (ops : List (String × ℤ)) (fname : String)
    (props : List Proprty) : Rng → Except Err (FuncResult × Rng) := fun r =>
  match rngChoice props r with
  | .error e => .error e
  | .ok (p, r) =>
    match rngLit r with
    | .error e => .error e
    | .ok (v, r) =>
      .ok ({ text := fn ++ "(" ++ p.name ++ ", " ++ v ++ ")", operators := ops, fname := fname }, r)

/-- Source `StringFilterFunctions.func_length`: generates (and discards) a value,
renders `length(P)`. -/
def run_length (props : List Proprty) : Rng → Except Err (FuncResult × Rng) := fun r =>
  match rngChoice props r with
  | .error e => .error e
  | .ok (p, r) =>
    match rngLit r with
    | .error e => .error e
    | .ok (_, r) =>
      .ok ({ text := "length(" ++ p.name ++ ")", operators := EXPRESSION_OPERATORS,
             fname := "length" }, r)

/-- Source `StringFilterFunctions.func_replace`. -/
def run_replace (props : List Proprty) : Rng → Except Err (FuncResult × Rng) := fun r =>
  match rngChoice props r with
  | .error e => .error e
  | .ok (p, r) =>
    match rngLit r with
    | .error e => .error e
    | .ok (l1, r) =>
      match rngLit r with
      | .error e => .error e
      | .ok (l2, r) =>
        .ok ({ text := "replace(" ++ p.name ++ ", " ++ l1 ++ ", " ++ l2 ++ ")",
               operators := EXPRESSION_OPERATORS, fname := "replace" }, r)

/-- Source `StringFilterFunctions.func_substring`: one or two integer literals,
decided by a `random.random() > 0.5` draw. -/
def run_substring (props : List Proprty) : Rng → Except Err (FuncResult × Rng) := fun r =>
  match rngChoice props r with
  | .error e => .error e
  | .ok (p, r) =>
    match rngLit r with
    | .error e => .error e
    | .ok (i1, r) =>
      match rngReal r with
      | .error e => .error e
      | .ok (q, r) =>
        if q > ONE_HALF then
          match rngLit r with
          | .error e => .error e
          | .ok (i2, r) =>
            .ok ({ text := "substring(" ++ p.name ++ ", " ++ i1 ++ ", " ++ i2 ++ ")",
                   operators := EXPRESSION_OPERATORS, fname := "substring" }, r)
        else
          .ok ({ text := "substring(" ++ p.name ++ ", " ++ i1 ++ ")",
                 operators := EXPRESSION_OPERATORS, fname := "substring" }, r)

/-- Source `StringFilterFunctions.func_concat`: either property + random string, or
two properties. -/
def run_concat (props : List Proprty) : Rng → Except Err (FuncResult × Rng) := fun r =>
  match rngChoice props r with
  | .error e => .error e
  | .ok (p, r) =>
    match rngReal r with
    | .error e => .error e
    | .ok (q, r) =>
      if q > ONE_HALF then
        match rngLit r with
        | .error e => .error e
        | .ok (v, r) =>
          .ok ({ text := "concat(" ++ p.name ++ ", " ++ v ++ ")",
                 operators := EXPRESSION_OPERATORS, fname := "concat" }, r)
      else
        match rngChoice props r with
        | .error e => .error e
        | .ok (p2, r) =>
          .ok ({ text := "concat(" ++ p.name ++ ", " ++ p2.name ++ ")",
                 operators := EXPRESSION_OPERATORS, fname := "concat" }, r)

/-- The `func_*` method named `n` of a wrapper holding `props`, as defined in
entities.py (note `func_year` records `FunctionsInt('second')` in the
source, line 652). -/
def specOfName (props : List Proprty) (n : String) : Option FuncSpec :=
  if n = "func_substringof" then
    some ⟨n, run_prop_value "substringof" BOOLEAN_OPERATORS "substringof" props⟩
  else if n = "func_endswith" then
    some ⟨n, run_prop_value "endswith" BOOLEAN_OPERATORS "endswith" props⟩
  else if n = "func_startswith" then
    some ⟨n, run_prop_value "startswith" BOOLEAN_OPERATORS "startswith" props⟩
  else if n = "func_length" then some ⟨n, run_length props⟩
  else if n = "func_indexof" then
    some ⟨n, run_prop_value "indexof" EXPRESSION_OPERATORS "indexof" props⟩
  else if n = "func_replace" then some ⟨n, run_replace props⟩
  else if n = "func_substring" then some ⟨n, run_substring props⟩
  else if n = "func_tolower" then
    some ⟨n, run_one_prop "tolower" EXPRESSION_OPERATORS "tolower" props⟩
  else if n = "func_toupper" then
    some ⟨n, run_one_prop "toupper" EXPRESSION_OPERATORS "toupper" props⟩
  else if n = "func_trim" then
    some ⟨n, run_one_prop "trim" EXPRESSION_OPERATORS "trim" props⟩
  else if n = "func_concat" then some ⟨n, run_concat props⟩
  else if n = "func_day" then
    some ⟨n, run_one_prop "day" EXPRESSION_OPERATORS "day" props⟩
  else if n = "func_hour" then
    some ⟨n, run_one_prop "hour" EXPRESSION_OPERATORS "hour" props⟩
  else if n = "func_minute" then
    some ⟨n, run_one_prop "minute" EXPRESSION_OPERATORS "minute" props⟩
  else if n = "func_month" then
    some ⟨n, run_one_prop "month" EXPRESSION_OPERATORS "month" props⟩
  else if n = "func_second" then
    some ⟨n, run_one_prop "second" EXPRESSION_OPERATORS "second" props⟩
  else if n = "func_year" then
    some ⟨n, run_one_prop "year" EXPRESSION_OPERATORS "second" props⟩
  else if n = "func_round" then
    some ⟨n, run_one_prop "round" EXPRESSION_OPERATORS "round" props⟩
  else if n = "func_floor" then
    some ⟨n, run_one_prop "floor" EXPRESSION_OPERATORS "floor" props⟩
  else if n = "func_ceiling" then
    some ⟨n, run_one_prop "ceiling" EXPRESSION_OPERATORS "ceiling" props⟩
  else none

/-- One wrapper of `self._functions.group.values()` with the methods its
class currently has. -/
def mkWrapper (c : Classes) (k : WrapperKind) (props : List Proprty) : FuncWrapper :=
  ⟨(methodsOf c k).filterMap (specOfName props)⟩

/-- Source `list(self._functions.group.values())` under the class state `c`. -/
def mkFuncGroup (c : Classes) (g : List (String × WrapperKind × List Proprty)) :
    List FuncWrapper :=
  g.map (fun e => mkWrapper c e.2.1 e.2.2)

/-- Source `FilterQuery.__init__` as far as generation is concerned: capture the
entity's properties and build the `FilterFunctionsGroup` (possibly applying
the global function exclusion list to the classes). -/
def FilterQuery_init (props : List Proprty) (restricted : Option (List String))
    (c : Classes) : FilterCtx × Classes :=
  let (g, c') := FilterFunctionsGroup_init props restricted c
  ({ proprties := props, funcGroup := mkFuncGroup c' g }, c')

/-! Part: Query group (`QueryGroup`) -/

/-- Source `QueryGroup._delete_restricted_proprties`: drop a property when its name
is in the per-entity exclusion list or it is not filterable. -/
def delete_restricted_proprties (props : List Proprty) (excludeNames : List String) :
    List Proprty :=
  props.filter (fun p => !(excludeNames.contains p.name || !p.filterable))

/-- The entity view `QueryGroup._init_filter_query` hands to `FilterQuery`:
the restricted copy when a filter restriction object is configured,
otherwise the entity set as-is. -/
def init_filter_query_proprties (props : List Proprty)
    (restr : Option (List String)) : List Proprty :=
  match restr with
  | some excl => delete_restricted_proprties props excl
  | none => props

/-- Source `QueryGroup._init_group`'s effect on `_query_options_list` and
`_query_filter_required` (no restrictions): the filter option first (added
to the required list iff the entity set `requires_filter`), then search,
`$top`, `$skip`. -/
def init_group_lists (filter_applies requires_filter searchable topable pageable : Bool) :
    List String × List String :=
  let lists : List String × List String :=
    if filter_applies then
      if requires_filter then ([], ["$filter"]) else (["$filter"], [])
    else ([], [])
  let opts := lists.1
  let opts := if searchable then opts ++ ["search"] else opts
  let opts := if topable then opts ++ ["$top"] else opts
  let opts := if pageable then opts ++ ["$skip"] else opts
  (opts, lists.2)

/-- Python 3 `round` of the rational `num / den` (`den > 0` at call sites):
round half to even. -/
def pyRound (num den : ℤ) : ℤ :=
  let f := Int.fdiv num den
  let rem := num - f * den
  if 2 * rem < den then f
  else if 2 * rem > den then f + 1
  else if f % 2 = 0 then f else f + 1

/-- Source `random.sample(xs, k)`: `k` distinct positions, drawn via the index
stream; `ValueError` when the sample is larger than the population. -/
def pySample {α : Type} : Nat → List α → List Nat → Except Err (List α)
  | 0, _, _ => .ok []
  | _ + 1, [], _ => .error .valueError
  | k + 1, x :: xs, idxs =>
    match idxs with
    | [] => .error .outOfRand
    | i :: is =>
      let j := i % (xs.length + 1)
      let y := (x :: xs).getD j x
      match pySample k ((x :: xs).eraseIdx j) is with
      | .error e => .error e
      | .ok ys => .ok (y :: ys)

/-- Source `QueryGroup.random_options`: draw a sample length as
`round(random.random() * len(list))`, sample that many options, and return
the sample concatenated with `self._query_options_list` itself. -/
def random_options (options_list : List String) (r : ℤ) (idxs : List Nat) :
    Except Err (List String) :=
  let k := pyRound (r * options_list.length) PROB_DENOM
  match pySample k.toNat options_list idxs with
  | .error e => .error e
  | .ok smp => .ok (smp ++ options_list)

/-! Part: String helpers for stating properties -/

/-- Does the first list occur at the head of the second? -/
def strStarts : List Char → List Char → Bool
  | [], _ => true
  | _ :: _, [] => false
  | a :: as, b :: bs => a == b && strStarts as bs

/-- Substring containment on char lists. -/
def strHasAux : List Char → List Char → Bool
  | n, [] => n.isEmpty
  | n, c :: cs => strStarts n (c :: cs) || strHasAux n cs

def strHas (needle hay : String) : Bool :=
  strHasAux needle.toList hay.toList

/-- Maximum parenthesis nesting depth of a rendered expression. -/
def maxParenAux : List Char → Nat → Nat → Nat
  | [], _, m => m
  | c :: cs, d, m =>
    if c = '(' then maxParenAux cs (d + 1) (max m (d + 1))
    else if c = ')' then maxParenAux cs (d - 1) m
    else maxParenAux cs d m

def maxParenDepth (s : String) : Nat :=
  maxParenAux s.toList 0 0

/-! Part: Concrete inputs used by the theorems below -/

instance {e a : Type} [DecidableEq e] [DecidableEq a] : DecidableEq (Except e a)
  | .error x, .error y =>
    if h : x = y then .isTrue (by rw [h]) else .isFalse (by intro hc; cases hc; exact h rfl)
  | .error _, .ok _ => .isFalse (by intro hc; cases hc)
  | .ok _, .error _ => .isFalse (by intro hc; cases hc)
  | .ok x, .ok y =>
    if h : x = y then .isTrue (by rw [h]) else .isFalse (by intro hc; cases hc; exact h rfl)

/-- A filterable boolean property (operator table `{eq: 1.0}` as installed by
`patch_proprty_operator` for a single-value filter restriction). -/
def propP : Proprty := { name := "P", typ := "Edm.Boolean", operators := [("eq", 100)] }

/-- The `IsActive` boolean property of the C7 scenario. -/
def isActiveP : Proprty :=
  { name := "IsActive", typ := "Edm.Boolean", operators := [("eq", 100)] }

/-- A filterable `Edm.String` property. -/
def propA : Proprty := { name := "A", typ := "Edm.String", operators := EXPRESSION_OPERATORS }

/-- A second filterable `Edm.String` property, owned by a different entity. -/
def propB : Proprty := { name := "B", typ := "Edm.String", operators := EXPRESSION_OPERATORS }

/-- A filterable `Edm.Decimal` property. -/
def propD : Proprty := { name := "D", typ := "Edm.Decimal", operators := EXPRESSION_OPERATORS }

/-- A non-filterable property. -/
def propQ : Proprty where
  name := "Q"
  typ := "Edm.String"
  filterable := false
  operators := EXPRESSION_OPERATORS

/-- Draws for one `generate` run that opens four nested groups before the
recursion-depth counter (which only `_noterm_expression` increments) ever
exceeds the limit: 60/100 keeps taking the `_generate_child` /
`_generate_child_group` branches, 40/100 terminates, 90/100 skips the
function branch, 50/100 draws the weighted operator. -/
def c1reals : List ℤ :=
  [60, 60, 60, 60, 60, 60, 60, 60, 60,
   40, 40, 90, 50,
   40,
   40, 40, 90, 50,
   40, 40, 40, 90, 50,
   40, 40, 40, 90, 50,
   40, 40, 40, 90, 50,
   40, 40, 40, 90, 50]

def c1rng : Rng := ⟨c1reals, [0, 0, 0, 0, 0, 0], ["x", "x", "x", "x", "x", "x"]⟩

def c1ctx : FilterCtx := { proprties := [propP], funcGroup := [] }

/-- A state whose recursion depth already exceeds the limit. -/
def c1wState : GenState :=
  { rng := ⟨[40, 90, 90, 50], [0], ["v"]⟩, recursion_depth := 4 }

/-- The state `noterm_parent c1ctx 5 c1wState` produces. -/
def c1wOut : GenState where
  rng := ⟨[], [], []⟩
  recursion_depth := 5
  opt := { parts := [{ id := 0, name := some "P", oper := some "eq", operand := some "v" }] }
  option_string := "P eq v"
  next_id := 1

/-- The part `p1 eq 1` of the C2 scenario, still linked to the connective. -/
def C2p1 : PartN where
  id := 1
  name := some "p1"
  oper := some "eq"
  operand := some "1"
  right_id := some 3

/-- The `and` connective of the C2 scenario after external mutation: its
`right_id` still holds the id (2) of the deleted part `p2 eq 2`. -/
def C2logical : LogicalN :=
  { id := 3, name := some "and", left_id := some 1, right_id := some 2 }

/-- The mutated C2 graph: part `p2` (id 2) was deleted, the `and` Logical's
right link dangles. -/
def C2graph : OptionG := { logicals := [C2logical], parts := [C2p1], groups := [] }

/-- The context of the C3 witness: one filterable boolean property, an empty
function catalog. -/
def c3ctx : FilterCtx := { proprties := [isActiveP], funcGroup := [] }

/-- Randomness for one element generation on the property branch. -/
def c3wState : GenState := { rng := ⟨[90, 50], [0], ["true"]⟩ }

/-! Part: Supporting lemmas -/

theorem popReal_shape {s s1 : GenState} {r : ℤ} (h : popReal s = .ok (r, s1)) :
    s1.opt = s.opt ∧ s1.right_part = s.right_part ∧
    s1.recursion_depth = s.recursion_depth := by
  cases hr : s.rng.reals with
  | nil => simp [popReal, rngReal, hr] at h
  | cons q qs =>
    simp [popReal, rngReal, hr] at h
    obtain ⟨-, h2⟩ := h
    subst h2
    exact ⟨rfl, rfl, rfl⟩

theorem popLit_shape {s s1 : GenState} {v : String} (h : popLit s = .ok (v, s1)) :
    s1.opt = s.opt ∧ s1.right_part = s.right_part ∧
    s1.recursion_depth = s.recursion_depth := by
  cases hr : s.rng.lits with
  | nil => simp [popLit, rngLit, hr] at h
  | cons x xs =>
    simp [popLit, rngLit, hr] at h
    obtain ⟨-, h2⟩ := h
    subst h2
    exact ⟨rfl, rfl, rfl⟩

theorem pyChoiceS_shape {α : Type} {xs : List α} {s s1 : GenState} {x : α}
    (h : pyChoiceS xs s = .ok (x, s1)) :
    s1.opt = s.opt ∧ s1.right_part = s.right_part ∧
    s1.recursion_depth = s.recursion_depth := by
  cases xs with
  | nil => simp [pyChoiceS, rngChoice] at h
  | cons y ys =>
    cases hc : s.rng.choices with
    | nil => simp [pyChoiceS, rngChoice, hc] at h
    | cons i is =>
      simp [pyChoiceS, rngChoice, hc] at h
      obtain ⟨-, h2⟩ := h
      subst h2
      exact ⟨rfl, rfl, rfl⟩

theorem setLastPartFields_shape {s s1 : GenState} {nm op od : String} {fn : Option String}
    (h : setLastPartFields s nm op od fn = .ok s1) :
    s1.opt.parts.length = s.opt.parts.length ∧
    s1.opt.logicals = s.opt.logicals ∧ s1.opt.groups = s.opt.groups ∧
    s1.right_part = s.right_part := by
  cases hl : s.opt.parts.getLast? with
  | none => simp [setLastPartFields, hl] at h
  | some lp =>
    simp [setLastPartFields, hl] at h
    subst h
    simp [OptionG.updPart]

theorem update_right_shape {s s1 : GenState}
    (h : update_right_logical_references s = .ok s1) :
    s1.opt.parts.length = s.opt.parts.length ∧
    s1.opt.logicals.length = s.opt.logicals.length ∧
    s1.opt.groups.length = s.opt.groups.length := by
  cases hll : s.opt.logicals.getLast? with
  | none => simp [update_right_logical_references, hll] at h
  | some ll =>
    cases hlp : s.opt.parts.getLast? with
    | none => simp [update_right_logical_references, hll, hlp] at h
    | some lp =>
      cases hg : s.groups_stack.getLast? with
      | none =>
        simp [update_right_logical_references, hll, hlp, hg] at h
        subst h
        simp [OptionG.updPart, OptionG.updLogical]
      | some gid =>
        simp [update_right_logical_references, hll, hlp, hg] at h
        subst h
        simp [OptionG.updPart, OptionG.updLogical, OptionG.updGroup]

theorem generate_proprty_shape {ctx : FilterCtx} {s s1 : GenState}
    (h : generate_proprty ctx s = .ok s1) :
    s1.opt.parts.length = s.opt.parts.length ∧
    s1.opt.logicals = s.opt.logicals ∧ s1.opt.groups = s.opt.groups ∧
    s1.right_part = s.right_part := by
  unfold generate_proprty at h
  split at h
  · cases h
  next p sa hc =>
  have hca := pyChoiceS_shape hc
  split at h
  · cases h
  next r sb hr =>
  have hcb := popReal_shape hr
  split at h
  · cases h
  next v sc hv =>
  have hcc := popLit_shape hv
  cases hop : weightedRandomAux r p.operators with
  | none => simp [hop] at h
  | some op =>
    simp only [hop] at h
    have hd := setLastPartFields_shape h
    refine ⟨?_, ?_, ?_, ?_⟩
    · rw [hd.1]
      show sc.opt.parts.length = s.opt.parts.length
      rw [hcc.1, hcb.1, hca.1]
    · rw [hd.2.1]
      show sc.opt.logicals = s.opt.logicals
      rw [hcc.1, hcb.1, hca.1]
    · rw [hd.2.2.1]
      show sc.opt.groups = s.opt.groups
      rw [hcc.1, hcb.1, hca.1]
    · rw [hd.2.2.2]
      show sc.right_part = s.right_part
      rw [hcc.2.1, hcb.2.1, hca.2.1]

theorem generate_function_shape {ctx : FilterCtx} {s s1 : GenState}
    (h : generate_function ctx s = .ok s1) :
    s1.opt.parts.length = s.opt.parts.length ∧
    s1.opt.logicals = s.opt.logicals ∧ s1.opt.groups = s.opt.groups ∧
    s1.right_part = s.right_part := by
  unfold generate_function at h
  split at h
  · cases h
  next w sa hc =>
  have hca := pyChoiceS_shape hc
  split at h
  · cases h
  next fs sb hm =>
  have hcb := pyChoiceS_shape hm
  split at h
  · cases h
  next res rng2 hrun =>
  split at h
  · cases h
  next q sc hr =>
  have hcc := popReal_shape hr
  split at h
  · cases h
  next v sd hv =>
  have hcd := popLit_shape hv
  cases hop : weightedRandomAux q res.operators with
  | none => simp [hop] at h
  | some op =>
    simp only [hop] at h
    have he := setLastPartFields_shape h
    have hmid : sc.opt = sb.opt ∧ sc.right_part = sb.right_part := by
      refine ⟨?_, ?_⟩
      · rw [hcc.1]
      · rw [hcc.2.1]
    refine ⟨?_, ?_, ?_, ?_⟩
    · rw [he.1]
      show sd.opt.parts.length = s.opt.parts.length
      rw [hcd.1, hmid.1, hcb.1, hca.1]
    · rw [he.2.1]
      show sd.opt.logicals = s.opt.logicals
      rw [hcd.1, hmid.1, hcb.1, hca.1]
    · rw [he.2.2.1]
      show sd.opt.groups = s.opt.groups
      rw [hcd.1, hmid.1, hcb.1, hca.1]
    · rw [he.2.2.2]
      show sd.right_part = s.right_part
      rw [hcd.2.1, hmid.2, hcb.2.1, hca.2.1]

theorem generate_element_shape {ctx : FilterCtx} {s s1 : GenState}
    (h : generate_element ctx s = .ok s1) :
    s1.opt.parts.length = s.opt.parts.length + 1 ∧
    s1.opt.logicals.length = s.opt.logicals.length ∧
    s1.opt.groups.length = s.opt.groups.length := by
  unfold generate_element at h
  split at h
  · cases h
  next r sa hr =>
  have hca := popReal_shape hr
  have hlen : sa.opt.parts.length = s.opt.parts.length + 1 ∧
      sa.opt.logicals = s.opt.logicals ∧ sa.opt.groups = s.opt.groups := by
    rw [hca.1]
    simp [addPart]
  split at h
  · cases h
  next sb hb =>
  have hsb : sb.opt.parts.length = sa.opt.parts.length ∧
      sb.opt.logicals = sa.opt.logicals ∧ sb.opt.groups = sa.opt.groups := by
    split at hb
    · have := generate_function_shape hb
      exact ⟨this.1, this.2.1, this.2.2.1⟩
    · have := generate_proprty_shape hb
      exact ⟨this.1, this.2.1, this.2.2.1⟩
  split at h
  · have hur := update_right_shape h
    refine ⟨?_, ?_, ?_⟩
    · rw [hur.1]
      show sb.opt.parts.length = s.opt.parts.length + 1
      rw [hsb.1, hlen.1]
    · rw [hur.2.1]
      show sb.opt.logicals.length = s.opt.logicals.length
      rw [hsb.2.1, hlen.2.1]
    · rw [hur.2.2]
      show sb.opt.groups.length = s.opt.groups.length
      rw [hsb.2.2, hlen.2.2]
  · cases h
    refine ⟨?_, ?_, ?_⟩
    · rw [hsb.1, hlen.1]
    · rw [hsb.2.1, hlen.2.1]
    · rw [hsb.2.2, hlen.2.2]

theorem getD_mem_of_lt {α : Type} (l : List α) (n : Nat) (d : α) (h : n < l.length) :
    l.getD n d ∈ l := by
  induction l generalizing n with
  | nil => simp at h
  | cons x xs ih =>
    cases n with
    | zero => simp [List.getD]
    | succ m =>
      simp only [List.getD_cons_succ]
      exact List.mem_cons_of_mem x (ih m (by simpa using h))

theorem rngChoice_mem {α : Type} {xs : List α} {r r' : Rng} {m : α}
    (h : rngChoice xs r = .ok (m, r')) : m ∈ xs := by
  cases xs with
  | nil => simp [rngChoice] at h
  | cons y ys =>
    cases hc : r.choices with
    | nil => simp [rngChoice, hc] at h
    | cons i is =>
      simp [rngChoice, hc] at h
      have hlt : i % (ys.length + 1) < (y :: ys).length := by
        simpa using Nat.mod_lt i (Nat.succ_pos ys.length)
      rw [← h.1, List.getElem?_eq_getElem hlt, Option.getD_some]
      exact List.getElem_mem hlt

theorem not_mem_deleteFromClass_of_not_mem {x : String} {rs ms : List String}
    (h : x ∉ ms) : x ∉ deleteFromClass rs ms := by
  induction rs generalizing ms with
  | nil => simpa [deleteFromClass] using h
  | cons a as ih =>
    show x ∉ deleteFromClass as (if ("func_" ++ a) ∈ ms then ms.erase ("func_" ++ a) else ms)
    apply ih
    by_cases hc : ("func_" ++ a) ∈ ms
    · simp only [if_pos hc]
      intro hmem
      exact h (List.mem_of_mem_erase hmem)
    · simpa [if_neg hc] using h

theorem deleteFromClass_excluded_not_mem {r : String} {rs ms : List String}
    (hnd : ms.Nodup) (hr : r ∈ rs) : ("func_" ++ r) ∉ deleteFromClass rs ms := by
  induction rs generalizing ms with
  | nil => cases hr
  | cons a as ih =>
    show ("func_" ++ r) ∉
      deleteFromClass as (if ("func_" ++ a) ∈ ms then ms.erase ("func_" ++ a) else ms)
    rcases List.mem_cons.mp hr with heq | hmem
    · subst heq
      apply not_mem_deleteFromClass_of_not_mem
      by_cases hc : ("func_" ++ r) ∈ ms
      · simp only [if_pos hc]
        exact hnd.not_mem_erase
      · simpa [if_neg hc] using hc
    · have hnd2 : (if ("func_" ++ a) ∈ ms then ms.erase ("func_" ++ a) else ms).Nodup := by
        by_cases hc : ("func_" ++ a) ∈ ms
        · simp only [if_pos hc]
          exact hnd.erase _
        · simpa [if_neg hc] using hnd
      exact ih hnd2 hmem

/-! Part: The claims -/

/-- C1, counterexample: with the recursion limit fixed at
`RECURSION_LIMIT = 3`, a run of `FilterQuery.generate` whose draws keep
choosing the `_generate_child` / `_generate_child_group` branches (which the
depth counter does not guard) produces an expression whose groups nest
4 levels deep — the claimed bound `L` on nesting does not hold. -/
theorem C1_nesting_exceeds_limit_counterexample :
    (FilterQuery_generate c1ctx 100 c1rng).map (fun s => maxParenDepth s.option_string)
      = .ok (RECURSION_LIMIT + 1) := by
  simp [FilterQuery_generate, noterm_expression, noterm_parent,
    generate_child, generate_child_group, noterm_child, noterm_logical, generate_element,
    generate_function, generate_proprty, setLastPartFields, update_group_references,
    update_left_logical_references, update_right_logical_references, addPart, addLogical,
    addGroup, popReal, popLit, pyChoiceS, rngReal, rngChoice, rngLit, weightedRandomAux,
    stackPopN, popOne, OptionG.updPart, OptionG.updLogical, OptionG.updGroup,
    OptionG.logical_by_id, OptionG.part_by_id, OptionG.group_by_id,
    maxParenDepth, maxParenAux, propP, c1rng, c1reals, c1ctx,
    FUNCTION_WEIGHT, ONE_HALF, LOGICAL_OPERATORS, RECURSION_LIMIT,
    List.getD, List.find?, List.getLast?, List.dropLast, Except.map, String.toList]

/-- C1 (amended): once the recursion-depth counter exceeds the limit, only
terminal expansion is possible on every grammar path: any successful
`_noterm_parent` expansion started at depth `> RECURSION_LIMIT` creates no
new Group and no new Logical and adds exactly one Part (the
`_generate_child` / `_generate_child_group` branches are unreachable).  The
depth counter does not, however, bound group nesting (see the
counterexample), and termination holds only draw-by-draw, not for every
infinite draw sequence. -/
theorem C1_terminal_only_beyond_limit (ctx : FilterCtx) (fuel : Nat) (s s1 : GenState)
    (hd : ctx.limit < s.recursion_depth)
    (hok : noterm_parent ctx fuel s = .ok s1) :
    s1.opt.groups.length = s.opt.groups.length ∧
    s1.opt.logicals.length = s.opt.logicals.length ∧
    s1.opt.parts.length = s.opt.parts.length + 1 := by
  cases fuel with
  | zero => simp [noterm_parent] at hok
  | succ f =>
    unfold noterm_parent at hok
    split at hok
    · cases hok
    next r sa hr =>
    have ha := popReal_shape hr
    split at hok
    case isTrue hcond =>
      cases f with
      | zero => simp [noterm_expression] at hok
      | succ f2 =>
        unfold noterm_expression at hok
        split at hok
        · cases hok
        next r2 sb hr2 =>
        have hb := popReal_shape hr2
        have hbo : sb.opt = sa.opt := hb.1
        have hao : sa.opt = s.opt := ha.1
        split at hok
        case isTrue hcond2 =>
          have hge := generate_element_shape hok
          refine ⟨?_, ?_, ?_⟩
          · rw [hge.2.2, hbo, hao]
          · rw [hge.2.1, hbo, hao]
          · rw [hge.1, hbo, hao]
        case isFalse hcond2 =>
          exfalso
          apply hcond2
          right
          have hb2 : sb.recursion_depth = sa.recursion_depth + 1 := hb.2.2
          have ha2 : sa.recursion_depth = s.recursion_depth := ha.2.2
          omega
    case isFalse hcond =>
      exfalso
      apply hcond
      right
      have ha2 : sa.recursion_depth = s.recursion_depth := ha.2.2
      omega

/-- Witness for C1: a state at depth 4 (limit 3) from which `noterm_parent`
adds exactly one part and no group or logical. -/
theorem C1_terminal_only_beyond_limit_witness :
    c1wOut.opt.groups.length = c1wState.opt.groups.length ∧
    c1wOut.opt.logicals.length = c1wState.opt.logicals.length ∧
    c1wOut.opt.parts.length = c1wState.opt.parts.length + 1 :=
  C1_terminal_only_beyond_limit c1ctx 5 c1wState c1wOut (by decide)
    (by simp [noterm_parent, noterm_expression, generate_element, generate_proprty,
      addPart, popReal, popLit, pyChoiceS, rngReal, rngChoice, rngLit, weightedRandomAux,
      setLastPartFields, OptionG.updPart, c1ctx, c1wState, c1wOut, propP,
      FUNCTION_WEIGHT, ONE_HALF, RECURSION_LIMIT, List.getD, List.getLast?])

/-- C2, counterexample: the graph of the claimed scenario — part `p1 eq 1`,
an `and` Logical whose `right_id` (2) resolves to no node because part
`p2 eq 2` was deleted — renders to the string `p1 eq 1` instead of failing:
`build` silently drops the dangling connective. -/
theorem C2_dangling_link_renders_counterexample :
    C2graph.part_by_id 2 = none ∧ C2graph.group_by_id 2 = none ∧
    C2logical.right_id = some 2 ∧
    FilterOptionBuilder_build C2graph 20 = .ok "p1 eq 1" := by decide

/-- C2 (amended): whenever external mutation leaves the graph with exactly
one Part, `FilterOptionBuilder.build` does not fail: it returns that Part's
rendering alone, dropping any dangling connective; no dedicated
unrenderable-graph error exists in the renderer. -/
theorem C2_single_part_renders_silently (o : OptionG) (p : PartN) (fuel : Nat)
    (h : o.parts = [p]) :
    FilterOptionBuilder_build o fuel = build_filter_part p := by
  unfold FilterOptionBuilder_build
  rw [h]

/-- Witness for C2. -/
theorem C2_single_part_renders_silently_witness :
    FilterOptionBuilder_build C2graph 5 = build_filter_part C2p1 :=
  C2_single_part_renders_silently C2graph C2p1 5 rfl

/-- C3, counterexample: an entity whose only (filterable) property is a
boolean has an empty function catalog (`_init_functions_group` only files
String/Date/Decimal properties), so the draw that selects the function
branch makes `random.choice` raise `IndexError` inside `generate`. -/
theorem C3_generate_raises_counterexample :
    isActiveP.filterable = true ∧
    init_functions_group [isActiveP] = [] ∧
    FilterQuery_generate
        { proprties := [isActiveP],
          funcGroup := mkFuncGroup initialClasses (init_functions_group [isActiveP]) } 100
        ⟨[40, 20], [], []⟩ = .error .indexError := by
  refine ⟨rfl, by decide, ?_⟩
  simp [FilterQuery_generate, noterm_expression, generate_element, generate_function,
    addPart, popReal, pyChoiceS, rngReal, rngChoice, mkFuncGroup, init_functions_group,
    isActiveP, setdefaultAdd, FUNCTION_WEIGHT, ONE_HALF, RECURSION_LIMIT]

/-- C3 (amended): inside element generation, the weighted operator draw and
the property choice always succeed (non-empty property list, operator table
hit by the draw), but the function-category choice raises `IndexError`
exactly when the catalog group is empty: generation is raise-free only on
runs that never take the function branch over an empty catalog. -/
theorem C3_element_generation_choices (ctx : FilterCtx) (s : GenState) (p : Proprty)
    (op : String) (rf rw0 : ℤ) (rest : List ℤ) (c0 : Nat) (cs : List Nat)
    (v : String) (ls : List String)
    (hp : ctx.proprties = [p])
    (hreals : s.rng.reals = rf :: rw0 :: rest) (hch : s.rng.choices = c0 :: cs)
    (hlits : s.rng.lits = v :: ls)
    (hrf : ¬ rf < FUNCTION_WEIGHT)
    (hop : weightedRandomAux rw0 p.operators = some op)
    (hrp : s.right_part = false) :
    (ctx.funcGroup = [] → generate_function ctx s = Except.error Err.indexError) ∧
    ∃ s1, generate_element ctx s = Except.ok s1 := by
  constructor
  · intro hfg
    simp [generate_function, pyChoiceS, rngChoice, hfg]
  · simp [generate_element, generate_proprty, addPart, popReal, popLit, pyChoiceS,
      rngReal, rngChoice, rngLit, setLastPartFields, OptionG.updPart,
      hreals, hch, hlits, hrf, hop, hrp, hp, List.getD, Nat.mod_one]

/-- Witness for C3. -/
theorem C3_element_generation_choices_witness :
    (c3ctx.funcGroup = [] → generate_function c3ctx c3wState = Except.error Err.indexError) ∧
    ∃ s1, generate_element c3ctx c3wState = Except.ok s1 :=
  C3_element_generation_choices c3ctx c3wState isActiveP "eq" 90 50 [] 0 [] "true" []
    rfl rfl rfl rfl (by decide) (by decide) rfl

/-- C4: for a filter-mandatory entity set (the filter option is put into
`_query_filter_required`), `random_options` returns
`sample + _query_options_list`, which never includes the required list — the
returned option set contains zero filter options, not exactly one. -/
theorem C4_mandatory_filter_never_returned :
    init_group_lists true true false false false = ([], ["$filter"]) ∧
    random_options [] 0 [] = .ok [] ∧
    ([] : List String).count "$filter" = 0 := by decide

/-- C5: `random_options` on the one-element optional list `[$filter]` with
draw 0.9 returns the sample concatenated with the whole list — an element
occurs twice and the result is longer than the list, so the result is not a
subset of the optional capabilities. -/
theorem C5_random_options_not_a_subset :
    random_options ["$filter"] 90 [0] = .ok ["$filter", "$filter"] ∧
    ¬ (["$filter", "$filter"] : List String).Nodup ∧
    (["$filter"] : List String).length < (["$filter", "$filter"] : List String).length := by
  refine ⟨by decide, by decide, by decide⟩

/-- C6: with no filter restriction configured, `_init_filter_query` hands
the entity set to `FilterQuery` unfiltered (`_delete_restricted_proprties`
only runs inside the restriction branch), so `_generate_proprty` can pick
the non-filterable property `Q` and record it in the generated Part. -/
theorem C6_nonfilterable_property_generated :
    init_filter_query_proprties [propP, propQ] none = [propP, propQ] ∧
    propQ.filterable = false ∧
    ((FilterQuery_generate
        { proprties := init_filter_query_proprties [propP, propQ] none, funcGroup := [] } 100
        ⟨[40, 90, 50], [1], ["v"]⟩).map (fun s => s.opt.parts.map (fun p => p.name)))
      = .ok [some "Q"] := by
  refine ⟨rfl, rfl, ?_⟩
  simp [FilterQuery_generate, noterm_expression, generate_element, generate_proprty,
    addPart, popReal, popLit, pyChoiceS, rngReal, rngChoice, rngLit, weightedRandomAux,
    setLastPartFields, OptionG.updPart, init_filter_query_proprties, propP, propQ,
    FUNCTION_WEIGHT, ONE_HALF, RECURSION_LIMIT, List.getD, List.getLast?, Except.map]

/-- C7, counterexample: on the `IsActive` entity, a run whose first draw
expands the grammar instead of terminating produces the compound string
`IsActive eq true and IsActive eq false` — so not every call yields exactly
`IsActive eq true` or `IsActive eq false`. -/
theorem C7_compound_expression_counterexample :
    generate_and_build { proprties := [isActiveP], funcGroup := [] } 100
        ⟨[60, 40, 40, 90, 50, 40, 40, 40, 90, 50], [0, 0], ["true", "false"]⟩
      = .ok "IsActive eq true and IsActive eq false" ∧
    "IsActive eq true and IsActive eq false" ≠ "IsActive eq true" ∧
    "IsActive eq true and IsActive eq false" ≠ "IsActive eq false" := by
  refine ⟨?_, by decide, by decide⟩
  simp [generate_and_build, FilterQuery_generate, noterm_expression, noterm_parent,
    generate_child, generate_child_group, noterm_child, noterm_logical, generate_element,
    generate_function, generate_proprty, setLastPartFields, update_group_references,
    update_left_logical_references, update_right_logical_references, addPart, addLogical,
    addGroup, popReal, popLit, pyChoiceS, rngReal, rngChoice, rngLit, weightedRandomAux,
    stackPopN, popOne, OptionG.updPart, OptionG.updLogical, OptionG.updGroup,
    OptionG.logical_by_id, OptionG.part_by_id, OptionG.group_by_id,
    FilterOptionBuilder_build, build_all, build_by_id, build_surroundings, build_group,
    check_last_logical, build_filter_part, isActiveP,
    FUNCTION_WEIGHT, ONE_HALF, LOGICAL_OPERATORS, RECURSION_LIMIT,
    List.getD, List.find?, List.getLast?, List.dropLast]

/-- C7 (amended): every call whose first grammar draw takes the terminal
branch and whose element draw takes the property branch renders to exactly
`IsActive eq true` or `IsActive eq false`: `weighted_random` over the table
`(eq, 1.0)` returns `eq` for every draw below 1, and the single-Part case
renders with no connectives or parentheses. -/
theorem C7_single_part_boolean_render (f : Nat) (r1 r2 r3 : ℤ) (rs : List ℤ)
    (c1 : Nat) (cs : List Nat) (l : String) (ls : List String)
    (h1 : r1 < ONE_HALF) (h2 : ¬ r2 < FUNCTION_WEIGHT) (h3 : r3 < 100)
    (hl : l = "true" ∨ l = "false") :
    generate_and_build { proprties := [isActiveP], funcGroup := [] } (f + 1)
        ⟨r1 :: r2 :: r3 :: rs, c1 :: cs, l :: ls⟩ = .ok ("IsActive eq " ++ l) ∧
    ("IsActive eq " ++ l = "IsActive eq true" ∨
     "IsActive eq " ++ l = "IsActive eq false") := by
  constructor
  · simp [generate_and_build, FilterQuery_generate, noterm_expression, generate_element,
      generate_proprty, addPart, popReal, popLit, pyChoiceS, rngReal, rngChoice, rngLit,
      weightedRandomAux, setLastPartFields, OptionG.updPart, isActiveP,
      FilterOptionBuilder_build, build_filter_part, h1, h2, h3,
      List.getD, Nat.mod_one]
  · rcases hl with h | h
    · left
      rw [h]
      rfl
    · right
      rw [h]
      rfl

/-- Witness for C7. -/
theorem C7_single_part_boolean_render_witness :
    generate_and_build { proprties := [isActiveP], funcGroup := [] } (99 + 1)
        ⟨40 :: 90 :: 50 :: [], 0 :: [], "true" :: []⟩ = .ok ("IsActive eq " ++ "true") ∧
    ("IsActive eq " ++ "true" = "IsActive eq true" ∨
     "IsActive eq " ++ "true" = "IsActive eq false") :=
  C7_single_part_boolean_render 99 40 90 50 [] 0 [] "true" []
    (by decide) (by decide) (by decide) (Or.inl rfl)

/-- C8: an entity with an `Edm.Decimal` filterable property gets a `Math`
catalog entry that holds a `DateFilterFunctions` instance (entities.py line
588), so its available constructors are the date functions `day`..`year`,
not the math functions `round`/`floor`/`ceiling` of the never-instantiated
`MathFilterFunctions` class. -/
theorem C8_decimal_category_has_date_functions :
    init_functions_group [propD] = [("Math", WrapperKind.dateW, [propD])] ∧
    (mkFuncGroup initialClasses (init_functions_group [propD])).map
        (fun w => w.methods.map (fun m => m.mname))
      = [["func_day", "func_hour", "func_minute", "func_month", "func_second", "func_year"]] ∧
    "func_round" ∉ methodsOf initialClasses WrapperKind.dateW ∧
    initialClasses.mathFuncs = ["func_ceiling", "func_floor", "func_round"] := by
  refine ⟨by decide, by decide, by decide, by decide⟩

/-- C9, counterexample: with `substring` in the global exclusion list before
the `FilterQuery` is constructed, `func_substring` is deleted but
`func_substringof` stays available, and a generated call text
`substringof(A, x)` contains the excluded function's name `substring` as a
substring. -/
theorem C9_excluded_name_in_text_counterexample :
    (FilterQuery_init [propA] (some ["substring"]) initialClasses).2.stringFuncs =
      ["func_concat", "func_endswith", "func_indexof", "func_length", "func_replace",
       "func_startswith", "func_substringof", "func_tolower", "func_toupper", "func_trim"] ∧
    ((FilterQuery_generate (FilterQuery_init [propA] (some ["substring"]) initialClasses).1 100
        ⟨[40, 20, 20], [0, 6, 0], ["x", "y"]⟩).map
      (fun s => (s.option_string, strHas "substring" s.option_string)))
      = .ok ("substringof(A, x) eq y", true) := by
  refine ⟨by decide, ?_⟩
  simp [FilterQuery_generate, noterm_expression, generate_element, generate_function,
    generate_proprty, addPart, popReal, popLit, pyChoiceS, rngReal, rngChoice, rngLit,
    weightedRandomAux, setLastPartFields, OptionG.updPart,
    FilterQuery_init, FilterFunctionsGroup_init, init_functions_group, setdefaultAdd,
    delete_restricted_functions, deleteFromClass, initialClasses, mkFuncGroup, mkWrapper,
    methodsOf, specOfName, run_prop_value, propA,
    strHas, strHasAux, strStarts, String.toList, Except.map,
    FUNCTION_WEIGHT, ONE_HALF, BOOLEAN_OPERATORS, RECURSION_LIMIT,
    List.getD, List.getLast?, List.filterMap, List.erase]

/-- C9 (amended): the restriction itself is effective — a function chosen by
`_generate_function`'s method-dictionary lookup, after the exclusion list
was applied to the class's method table, is never an excluded function; the
excluded name can only reappear inside another available function's call
text (such as `substringof` when `substring` is excluded). -/
theorem C9_excluded_function_never_chosen (restricted table : List String) (r m : String)
    (rng rng2 : Rng) (hnd : table.Nodup) (hr : r ∈ restricted)
    (hc : rngChoice (deleteFromClass restricted table) rng = .ok (m, rng2)) :
    m ≠ "func_" ++ r := fun heq =>
  deleteFromClass_excluded_not_mem hnd hr (heq ▸ rngChoice_mem hc)

/-- Witness for C9. -/
theorem C9_excluded_function_never_chosen_witness :
    ("func_concat" : String) ≠ "func_" ++ "substring" :=
  C9_excluded_function_never_chosen ["substring"] initialClasses.stringFuncs "substring"
    "func_concat" ⟨[], [0], []⟩ ⟨[], [], []⟩ (by decide) (by decide) (by decide)

/-- C10, counterexample: applying the exclusion list `concat` while
constructing one `FilterQuery` deletes `func_concat` from the
`StringFilterFunctions` class itself, so a different
`FilterFunctionsGroup`'s String wrapper — over a different entity's
properties — no longer exposes the same constructor set. -/
theorem C10_other_group_changed_counterexample :
    ((mkWrapper (FilterQuery_init [propA] (some ["concat"]) initialClasses).2
        WrapperKind.stringW [propB]).methods.map (fun f => f.mname))
      ≠ ((mkWrapper initialClasses WrapperKind.stringW [propB]).methods.map
        (fun f => f.mname)) := by decide

/-- C10 (amended): `_delete_restricted_functions` rewrites the shared class
method table: after a group holding a String wrapper applies the exclusion
list, the `StringFilterFunctions` class's table is the restricted one — for
every group in the process, existing or future — while classes not present
in the restricting group are untouched. -/
theorem C10_restriction_mutates_shared_class (restricted : List String) (c : Classes)
    (ps : List Proprty) :
    methodsOf (delete_restricted_functions [("String", WrapperKind.stringW, ps)] restricted c)
        WrapperKind.stringW = deleteFromClass restricted c.stringFuncs ∧
    methodsOf (delete_restricted_functions [("String", WrapperKind.stringW, ps)] restricted c)
        WrapperKind.dateW = c.dateFuncs ∧
    methodsOf (delete_restricted_functions [("String", WrapperKind.stringW, ps)] restricted c)
        WrapperKind.mathW = c.mathFuncs :=
  ⟨rfl, rfl, rfl⟩

/-- Witness for C10. -/
theorem C10_restriction_mutates_shared_class_witness :
    methodsOf (delete_restricted_functions [("String", WrapperKind.stringW, [propB])]
        ["concat"] initialClasses) WrapperKind.stringW
      = deleteFromClass ["concat"] initialClasses.stringFuncs ∧
    methodsOf (delete_restricted_functions [("String", WrapperKind.stringW, [propB])]
        ["concat"] initialClasses) WrapperKind.dateW = initialClasses.dateFuncs ∧
    methodsOf (delete_restricted_functions [("String", WrapperKind.stringW, [propB])]
        ["concat"] initialClasses) WrapperKind.mathW = initialClasses.mathFuncs :=
  C10_restriction_mutates_shared_class ["concat"] initialClasses [propB]

end Odfuzz
